import Mathlib

/-!
Shallow embedding of `react-native-immutable-list-view`:
`ImmutableListView` (src/unnamed/part_000, i.e. ImmutableListView.js) and
`EmptyListView` (src/src/ImmutableListView/EmptyListView.js).

Immutable.js collections are modelled as association lists of keyed rows; a
row carries a reference tag `ref` (distinct JS object identity) next to its
structural value `val`, so that `Immutable.is` (structural equality) can be
told apart from reference identity. Host-supplied render functions are
modelled as opaque tokens (`Nat` ids); applying one produces a `Rendered`
node recording which function was invoked. React elements returned by
`render` are `Rendered` values.

The helpers from `utils.js` (not part of the provided sources) are modelled
from the spec and marked as such in their doc comments.
-/

namespace RNImmutable

/-- A primitive Immutable.js datum: a number-like atom, a string, or
`undefined`. -/
inductive FlatVal where
  | atom : Nat → FlatVal
  | str : String → FlatVal
  | undef : FlatVal
deriving DecidableEq, Repr

/-- Structural value of a row: a primitive, or a keyed sub-collection (the
rows of one section, nested one level as the sectioned ListView uses). -/
inductive IVal where
  | prim : FlatVal → IVal
  | sub : List (String × FlatVal) → IVal
deriving DecidableEq, Repr

/-- A row value: a JS reference tag plus the structural value it points to.
Two rows with different `ref` but equal `val` model distinct-but-structurally-
equal Immutable values. -/
structure Row where
  ref : Nat
  val : IVal
deriving DecidableEq, Repr

/-- An Immutable keyed ordered collection: association list of key/row pairs,
in the collection's own iteration order. -/
abbrev Collection := List (String × Row)

/-- `Immutable.is(a, b)`: structural (value) equality, ignoring references. -/
def immutableIs (a b : Row) : Bool := a.val == b.val

/-- The `rowHasChanged` callback installed in the ListView data source
(ImmutableListView.js line 211):
`(prevRowData, nextRowData) => !Immutable.is(prevRowData, nextRowData)`. -/
def rowHasChanged (prevRowData nextRowData : Row) : Bool :=
  !(immutableIs prevRowData nextRowData)

/-- A string- or function-valued empty renderer prop (`renderEmpty`,
`renderEmptyInList`); host functions are opaque tokens. -/
inductive Renderer where
  | str : String → Renderer
  | fn : Nat → Renderer
deriving DecidableEq, Repr

/-- JS truthiness of an optional renderer prop: `undefined` and the empty
string are falsy, any other string and any function are truthy. -/
def truthy : Option Renderer → Bool
  | none => false
  | some (.str s) => !(s == "")
  | some (.fn _) => true

/-- A `renderRow` prop: a host function token, the `EmptyListView` default
row renderer (a closure rendering the captured `emptyText` as styled text), or
the closure `() => renderEmptyInList(this.props)` built in the function-valued
`renderEmptyInList` branch. -/
inductive RowRenderer where
  | host : Nat → RowRenderer
  | emptyTextRow : String → RowRenderer
  | emptyInListFn : Nat → RowRenderer
deriving DecidableEq, Repr

/-- A `sectionHeaderHasChanged` prop: a host predicate token or the default
`(prevSectionData, nextSectionData) => false`. -/
inductive SectionPred where
  | host : Nat → SectionPred
  | alwaysFalse : SectionPred
deriving DecidableEq, Repr

/-- The props record shared by both components. Fields a component can
receive as `undefined` are `Option`s; `other` stands for the remaining
pass-through ListView configuration, forwarded verbatim. -/
structure Props where
  immutableData : Collection
  rowsDuringInteraction : Option Int := none
  renderSectionHeader : Bool := false
  sectionHeaderHasChanged : Option SectionPred := none
  renderEmpty : Option Renderer := none
  renderEmptyInList : Option Renderer := none
  enableEmptySections : Option Bool := none
  emptyText : Option String := none
  renderRow : Option RowRenderer := none
  other : Nat := 0
deriving DecidableEq, Repr

/-- The derived ListView data source, recording which clone operation built it
and with what arguments (ImmutableListView.js lines 266-272). `initial` is the
data source created in the initial component state (lines 210-222). -/
inductive DataSource where
  | initial : DataSource
  | flat : Collection → List String → DataSource
  | sectioned : Collection → List String → List (List String) → DataSource
deriving DecidableEq, Repr

/-- The display data a data source was built from. -/
def DataSource.sourceData : DataSource → Collection
  | .initial => []
  | .flat d _ => d
  | .sectioned d _ _ => d

/-- The component state of `ImmutableListView`: `{ dataSource,
interactionOngoing }` (lines 209-225); `interactionOngoing` starts `true`. -/
structure CompState where
  dataSource : DataSource
  interactionOngoing : Bool
deriving DecidableEq, Repr

/-- The initial state (lines 209-225). -/
def initialState : CompState :=
  { dataSource := .initial, interactionOngoing := true }

/-- A component instance: the `canSetState` liveness flag plus the state. -/
structure Component where
  canSetState : Bool
  state : CompState
deriving DecidableEq, Repr

/-- Modelled from the spec: `utils.getKeys` enumerates the keys of a
collection in the collection's own iteration order. -/
def getKeys (c : Collection) : List String := c.map Prod.fst

/-- Row keys of one section value: the section's own keys in its own
iteration order; a non-collection row has none. -/
def sectionRowKeys (r : Row) : List String :=
  match r.val with
  | .sub l => l.map Prod.fst
  | _ => []

/-- Modelled from the spec: `utils.getRowIdentities` enumerates, per section
key in the collection's own iteration order, that section's row keys in that
section's own iteration order. -/
def getRowIdentities (c : Collection) : List (List String) :=
  c.map (fun e => sectionRowKeys e.2)

/-- Whether a row is an empty sub-collection (a section with no rows). -/
def isEmptySection (r : Row) : Bool :=
  match r.val with
  | .sub l => l.isEmpty
  | _ => false

/-- Modelled from the spec: `utils.isEmptyListView` — a collection is empty
iff it has no entries, or empty sections are excluded and every entry is a
section with no rows ("empty iff no sections OR (no rows AND sections
excluded)"). -/
def isEmptyListView (c : Collection) (enableEmptySections : Bool) : Bool :=
  c.isEmpty || (!enableEmptySections && c.all (fun e => isEmptySection e.2))

/-- Modelled from the spec: `utils.UNITARY_LIST` — a one-element sequence, the
initial `listData` state of `EmptyListView`. -/
def UNITARY_LIST : Collection := [("0", { ref := 0, val := .prim .undef })]

/-- `props.rowsDuringInteraction >= 0` in JS: false when the prop is
`undefined`, numeric comparison otherwise. -/
def rdiNonNeg : Option Int → Bool
  | some n => decide (0 ≤ n)
  | none => false

/-- `immutableData.slice(0, rowsDuringInteraction)` in the branch where the
prop is a non-negative number. -/
def sliceRows : Option Int → Collection → Collection
  | some n, c => c.take n.toNat
  | none, c => c

namespace ImmutableListView

/-- `ImmutableListView.defaultProps` (lines 192-207): default
`sectionHeaderHasChanged` always returns false, `enableEmptySections` defaults
to true, and `renderEmptyInList` defaults to the string "No data.". -/
def withDefaults (p : Props) : Props :=
  { p with
    sectionHeaderHasChanged := some (p.sectionHeaderHasChanged.getD .alwaysFalse)
    enableEmptySections := some (p.enableEmptySections.getD true)
    renderEmptyInList := some (p.renderEmptyInList.getD (.str "No data.")) }

/-- `setStateFromProps(props, interactionHasJustFinished)` (lines 252-278).
Returns `none` when the liveness check `if (!this.canSetState) return;` fires,
i.e. no `setState` call is attempted; otherwise the committed new state. -/
def setStateFromProps (canSetState : Bool) (st : CompState) (props : Props)
    (interactionHasJustFinished : Bool) : Option CompState :=
  if !canSetState then none
  else
    let shouldDisplayPartialData :=
      rdiNonNeg props.rowsDuringInteraction && st.interactionOngoing
        && !interactionHasJustFinished
    let displayData :=
      if shouldDisplayPartialData then
        sliceRows props.rowsDuringInteraction props.immutableData
      else props.immutableData
    let updatedDataSource :=
      if props.renderSectionHeader then
        DataSource.sectioned displayData (getKeys displayData)
          (getRowIdentities displayData)
      else
        DataSource.flat displayData (getKeys displayData)
    some { dataSource := updatedDataSource
           interactionOngoing :=
             if interactionHasJustFinished then false else st.interactionOngoing }

/-- Apply a possible state commit to a component instance. -/
def commit (c : Component) (r : Option CompState) : Component :=
  { c with state := r.getD c.state }

/-- `setStateFromPropsAfterInteraction(props)` (lines 240-250): the
synchronous derivation runs immediately; the returned flag records whether a
deferred derivation was scheduled via `InteractionManager.runAfterInteractions`
(exactly when `props.rowsDuringInteraction >= 0`). -/
def setStateFromPropsAfterInteraction (c : Component) (props : Props) :
    Component × Bool :=
  (commit c (setStateFromProps c.canSetState c.state props false),
   rdiNonNeg props.rowsDuringInteraction)

/-- The scheduled callback `() => this.setStateFromProps(props, true)` firing
after interactions complete, with the props snapshot it captured. -/
def fireDeferred (c : Component) (props : Props) : Component :=
  commit c (setStateFromProps c.canSetState c.state props true)

/-- `componentWillUnmount()` (lines 236-238): clears the liveness flag. -/
def componentWillUnmount (c : Component) : Component :=
  { c with canSetState := false }

/-- `componentWillMount()` (lines 227-230): sets the liveness flag and runs
`setStateFromPropsAfterInteraction` on the initial state. -/
def mount (props : Props) : Component × Bool :=
  setStateFromPropsAfterInteraction
    { canSetState := true, state := initialState } props

/-- The ordered sequence of states observable during one prop update: the
synchronously committed state first, then — when a deferred derivation was
scheduled — the state committed when the deferred callback fires. -/
def interactionRun (c : Component) (props : Props) : List CompState :=
  let step := setStateFromPropsAfterInteraction c props
  if step.2 then [step.1.state, (fireDeferred step.1 props).state]
  else [step.1.state]

end ImmutableListView

/-- A rendered React element tree node, as far as the claims need to see it:
a styled `<Text>` showing a string; the invocation of a host render function
token on the full props; the invocation of a host in-list render function from
the closure built at line 311; an `<EmptyListView {...} />` element with the
props it receives; an `<ImmutableListView {...} />` element with the props it
receives; or a `<ListView dataSource={...} {...} />` element. -/
inductive Rendered where
  | text : String → Rendered
  | hostCall : Nat → Props → Rendered
  | hostEmptyInListCall : Nat → Rendered
  | emptyEl : Props → Rendered
  | ilvEl : Props → Rendered
  | listViewEl : DataSource → Props → Rendered
deriving DecidableEq, Repr

/-- Whether a rendered node is the underlying `ListView` widget. -/
def Rendered.isListWidget : Rendered → Bool
  | .listViewEl _ _ => true
  | _ => false

/-- Whether a rendered node is an `EmptyListView` placeholder element. -/
def Rendered.isEmptyEl : Rendered → Bool
  | .emptyEl _ => true
  | _ => false

/-- Running a `renderRow` prop on one row: a host token records its call, the
`EmptyListView` default renders its captured `emptyText` as text (EmptyListView
lines 181-189), and the in-list function closure records the call of the host
`renderEmptyInList` function (ImmutableListView line 311). -/
def RowRenderer.run : RowRenderer → Row → Rendered
  | .host n, r => .hostCall n { immutableData := [("row", r)] }
  | .emptyTextRow s, _ => .text s
  | .emptyInListFn n, _ => .hostEmptyInListCall n

namespace ImmutableListView

/-- `renderEmpty()` (lines 293-316). Returns `none` where the source returns
`null`. JS truthiness decides each branch, so an empty-string renderer is
treated as unset; `enableEmptySections` is read with `undefined` falsy. -/
def renderEmpty (p : Props) : Option Rendered :=
  let shouldTryToRenderEmpty := truthy p.renderEmpty || truthy p.renderEmptyInList
  if shouldTryToRenderEmpty
      && isEmptyListView p.immutableData (p.enableEmptySections.getD false) then
    if truthy p.renderEmpty then
      match p.renderEmpty with
      | some (.str s) => some (.text s)
      | some (.fn n) => some (.hostCall n p)
      | none => none
    else if truthy p.renderEmptyInList then
      match p.renderEmptyInList with
      | some (.str s) =>
        some (.emptyEl { p with renderRow := none, emptyText := some s })
      | some (.fn n) =>
        some (.emptyEl { p with renderRow := some (.emptyInListFn n) })
      | none => none
    else none
  else none

/-- The props destructuring in `render()` (lines 318-330): `immutableData`,
`renderEmpty`, `renderEmptyInList`, `rowsDuringInteraction` and
`sectionHeaderHasChanged` are consumed; everything else is spread onto the
`ListView` element. A consumed field is absent (its default) on the child. -/
def passThrough (p : Props) : Props :=
  { p with
    immutableData := []
    renderEmpty := none
    renderEmptyInList := none
    rowsDuringInteraction := none
    sectionHeaderHasChanged := none }

/-- `render()` (lines 318-331): `this.renderEmpty() || <ListView ... />`. -/
def render (p : Props) (st : CompState) : Rendered :=
  (renderEmpty p).getD (.listViewEl st.dataSource (passThrough p))

end ImmutableListView

namespace EmptyListView

/-- `EmptyListView.defaultProps` (EmptyListView.js lines 149-153): `emptyText`
defaults to "No data.". -/
def withDefaults (p : Props) : Props :=
  { p with emptyText := some (p.emptyText.getD "No data.") }

/-- Encoding of an optional renderer prop into the synthetic row datum built
by `Immutable.fromJS([renderEmpty, renderEmptyInList, emptyText])`. -/
def encodeRenderer : Option Renderer → FlatVal
  | none => .undef
  | some (.str s) => .str s
  | some (.fn n) => .atom n

/-- `setListDataFromProps(props)` (EmptyListView.js lines 167-175): the state
`listData` becomes the unitary list with index 0 set to the triple
`[renderEmpty, renderEmptyInList, emptyText]`, so it is a one-element
collection whose single row wraps the three consumed props. -/
def setListDataFromProps (p : Props) : Collection :=
  [("0", { ref := 0
           val := .sub [("0", encodeRenderer p.renderEmpty),
                        ("1", encodeRenderer p.renderEmptyInList),
                        ("2", match p.emptyText with
                              | some s => .str s
                              | none => .undef)] })]

/-- `render()` (EmptyListView.js lines 191-204): destructures `renderEmpty`,
`renderEmptyInList`, `renderSectionHeader` and `emptyText` out of the props,
then renders `<ImmutableListView renderRow={() => this.renderRow()}
{...passThroughProps} immutableData={listData} />`. The default `renderRow`
placed before the spread is kept only when the incoming props carry none; the
default closure renders `this.props.emptyText` as text. -/
def render (p : Props) (listData : Collection) : Rendered :=
  .ilvEl { p with
    renderEmpty := none
    renderEmptyInList := none
    renderSectionHeader := false
    emptyText := none
    renderRow := some (p.renderRow.getD (.emptyTextRow (p.emptyText.getD "No data.")))
    immutableData := listData }

/-- Mounting then rendering an `EmptyListView`: defaults applied to the props,
`componentWillMount` runs `setListDataFromProps`, then `render`. -/
def mountRender (p : Props) : Rendered :=
  render (withDefaults p) (setListDataFromProps (withDefaults p))

/-- The props of the inner `ImmutableListView` element produced by
`mountRender` (total projection; `mountRender` always yields an `ilvEl`). -/
def innerPropsOf (p : Props) : Props :=
  match mountRender p with
  | .ilvEl q => q
  | _ => p

end EmptyListView

/-!
Projections and abbreviations used only to state the theorems below.
-/

/-- The display data of lines 260-264, as a standalone function for stating
properties of `setStateFromProps`. -/
def displayDataOf (st : CompState) (p : Props) (interactionHasJustFinished : Bool) :
    Collection :=
  if rdiNonNeg p.rowsDuringInteraction && st.interactionOngoing
      && !interactionHasJustFinished then
    sliceRows p.rowsDuringInteraction p.immutableData
  else p.immutableData

/-- The data source built from given display data (lines 266-272), as a
standalone function for stating properties of `setStateFromProps`. -/
def buildDataSource (p : Props) (d : Collection) : DataSource :=
  if p.renderSectionHeader then
    DataSource.sectioned d (getKeys d) (getRowIdentities d)
  else DataSource.flat d (getKeys d)

/-- The display data the committed data source was built from, `none` when no
state was committed. -/
def committedData (canSetState : Bool) (st : CompState) (p : Props) (f : Bool) :
    Option Collection :=
  (ImmutableListView.setStateFromProps canSetState st p f).map
    (fun s => s.dataSource.sourceData)

/-- The keys of rows marked changed by `rowHasChanged` when the data source
diffs the aligned rows of the old and new collections. -/
def changedKeys (old new : Collection) : List String :=
  (old.zip new).filterMap
    (fun e => if rowHasChanged e.1.2 e.2.2 then some e.1.1 else none)

/-- The standalone empty branch result (lines 300-305): a string renders as
styled text, a function is invoked with the full props. -/
def standaloneRender (r : Renderer) (p : Props) : Rendered :=
  match r with
  | .str s => .text s
  | .fn n => .hostCall n p

/-- What the single row of the placeholder displays: mount and render an
`EmptyListView` on the given props, and when the result is an inner
`ImmutableListView` element over a one-element collection with a row renderer
that renders that row as text, return the text. -/
def placeholderRowText (q : Props) : Option String :=
  match EmptyListView.mountRender q with
  | .ilvEl r =>
    match r.renderRow, r.immutableData with
    | some rr, [(_, row)] =>
      match rr.run row with
      | .text t => some t
      | _ => none
    | _, _ => none
  | _ => none

/-!
Helper lemmas.
-/

theorem changedKeys_nil_of_struct_eq (old new : Collection)
    (h : old.map (fun e => e.2.val) = new.map (fun e => e.2.val)) :
    changedKeys old new = [] := by
  induction old generalizing new with
  | nil => simp [changedKeys]
  | cons e old ih =>
    cases new with
    | nil => simp at h
    | cons e' new =>
      simp only [List.map_cons, List.cons.injEq] at h
      simpa [changedKeys, rowHasChanged, immutableIs, h.1] using ih new h.2

theorem changedKeys_self (c : Collection) : changedKeys c c = [] :=
  changedKeys_nil_of_struct_eq c c rfl

theorem changedKeys_replace_one (pre post : Collection) (k : String) (r r' : Row)
    (h : r.val ≠ r'.val) :
    changedKeys (pre ++ (k, r) :: post) (pre ++ (k, r') :: post) = [k] := by
  induction pre with
  | nil =>
    simpa [changedKeys, rowHasChanged, immutableIs, h] using changedKeys_self post
  | cons e pre ih =>
    simpa [changedKeys, rowHasChanged, immutableIs] using ih

/-!
Claim theorems.
-/

/-- C3: after the component has been unmounted (the liveness flag
`canSetState` is false), every deferred invocation of `setStateFromProps`
attempts no state commit (it returns `none` before any `setState` call), and a
deferred callback firing on the unmounted component leaves the component state
(`dataSource`, `interactionOngoing`) unchanged, for every prop snapshot the
callback may have captured. -/
theorem unmounted_deferred_noop (c : Component) (p : Props) (f : Bool) :
    ImmutableListView.setStateFromProps
        (ImmutableListView.componentWillUnmount c).canSetState
        (ImmutableListView.componentWillUnmount c).state p f = none
    ∧ (ImmutableListView.fireDeferred
        (ImmutableListView.componentWillUnmount c) p).state = c.state :=
  ⟨rfl, rfl⟩

/-- C5: the data source's `rowHasChanged` predicate returns true iff the two
row values are structurally unequal; hence replacing a collection with a
structurally-equal-but-distinct one (equal values, arbitrary references) marks
no row as changed, and replacing the value at exactly one key marks exactly
that row as changed. -/
theorem rowHasChanged_structural (prev next : Row) :
    (rowHasChanged prev next = true ↔ prev.val ≠ next.val)
    ∧ (∀ old new : Collection,
        old.map (fun e => e.2.val) = new.map (fun e => e.2.val) →
        changedKeys old new = [])
    ∧ (∀ (pre post : Collection) (k : String) (r r' : Row), r.val ≠ r'.val →
        changedKeys (pre ++ (k, r) :: post) (pre ++ (k, r') :: post) = [k]) := by
  refine ⟨?_, fun old new h => changedKeys_nil_of_struct_eq old new h,
    fun pre post k r r' h => changedKeys_replace_one pre post k r r' h⟩
  simp [rowHasChanged, immutableIs]

theorem rowHasChanged_structural_witness :
    changedKeys [("a", ⟨0, .prim (.atom 1)⟩)] [("a", ⟨5, .prim (.atom 1)⟩)] = []
    ∧ changedKeys
        [("a", ⟨0, .prim (.atom 1)⟩), ("b", ⟨1, .prim (.atom 2)⟩)]
        [("a", ⟨0, .prim (.atom 1)⟩), ("b", ⟨1, .prim (.atom 3)⟩)] = ["b"]
    ∧ (rowHasChanged ⟨0, .prim (.atom 1)⟩ ⟨7, .prim (.atom 1)⟩ = true ↔
        (Row.mk 0 (.prim (.atom 1))).val ≠ (Row.mk 7 (.prim (.atom 1))).val) := by
  refine ⟨(rowHasChanged_structural ⟨0, .prim (.atom 1)⟩ ⟨0, .prim (.atom 1)⟩).2.1
      _ _ (by decide), ?_,
    (rowHasChanged_structural ⟨0, .prim (.atom 1)⟩ ⟨7, .prim (.atom 1)⟩).1⟩
  exact (rowHasChanged_structural ⟨0, .prim (.atom 1)⟩ ⟨0, .prim (.atom 1)⟩).2.2
    [("a", ⟨0, .prim (.atom 1)⟩)] [] "b" ⟨1, .prim (.atom 2)⟩ ⟨1, .prim (.atom 3)⟩
    (by decide)

/-- C2: whenever `rowsDuringInteraction` is a non-negative integer `n`, an
interaction is ongoing and it has not just finished, the committed data source
is built from exactly the first `n` entries of the collection in its own
order; in every other case it is built from the whole collection. -/
theorem derived_data_truncation :
    (∀ (st : CompState) (p : Props) (n : Int),
        p.rowsDuringInteraction = some n → 0 ≤ n → st.interactionOngoing = true →
        committedData true st p false = some (p.immutableData.take n.toNat))
    ∧ (∀ (st : CompState) (p : Props) (f : Bool),
        (rdiNonNeg p.rowsDuringInteraction && st.interactionOngoing && !f) = false →
        committedData true st p f = some p.immutableData) := by
  constructor
  · intro st p n hn h0 hio
    have hd : rdiNonNeg (some n) = true := by
      simp [rdiNonNeg, h0]
    simp [committedData, ImmutableListView.setStateFromProps, hn, hio, hd, sliceRows]
    cases hr : p.renderSectionHeader <;> simp [DataSource.sourceData]
  · intro st p f h
    simp [committedData, ImmutableListView.setStateFromProps, h]
    cases hr : p.renderSectionHeader <;> simp [DataSource.sourceData, h]

def truncationProps : Props :=
  { immutableData := [("a", ⟨0, .prim (.atom 1)⟩), ("b", ⟨1, .prim (.atom 2)⟩)]
    rowsDuringInteraction := some 1 }

theorem derived_data_truncation_witness :
    committedData true initialState truncationProps false
      = some [("a", ⟨0, .prim (.atom 1)⟩)]
    ∧ committedData true initialState truncationProps true
      = some truncationProps.immutableData := by
  constructor
  · have h := derived_data_truncation.1 initialState truncationProps 1 rfl
      (by decide) rfl
    simpa using h
  · exact derived_data_truncation.2 initialState truncationProps true (by decide)

/-- C6: for every derivation that commits, if a section-header renderer is
configured the data source is built as a sectioned source over the display
data, its section keys and its per-section row identities — sections and rows
both in the collection's own iteration order (the keys are exactly the first
components in list order, with no resorting); otherwise it is built as a flat
source over the display data and its keys. -/
theorem dataSource_build_shape :
    ∀ (st : CompState) (p : Props) (f : Bool) (s' : CompState),
      ImmutableListView.setStateFromProps true st p f = some s' →
      (p.renderSectionHeader = true →
        s'.dataSource = DataSource.sectioned (displayDataOf st p f)
          ((displayDataOf st p f).map Prod.fst)
          ((displayDataOf st p f).map (fun e => sectionRowKeys e.2)))
      ∧ (p.renderSectionHeader = false →
        s'.dataSource = DataSource.flat (displayDataOf st p f)
          ((displayDataOf st p f).map Prod.fst)) := by
  intro st p f s' h
  have h2 := Option.some.inj h
  constructor <;> intro hr <;>
    simp [← h2, hr, displayDataOf, getKeys, getRowIdentities]

def sectionedProps : Props :=
  { immutableData :=
      [("s1", ⟨0, .sub [("r1", .atom 1), ("r2", .atom 2)]⟩),
       ("s2", ⟨1, .sub [("r3", .atom 3)]⟩)]
    renderSectionHeader := true }

def sectionedState : CompState :=
  { dataSource :=
      DataSource.sectioned sectionedProps.immutableData ["s1", "s2"]
        [["r1", "r2"], ["r3"]]
    interactionOngoing := true }

theorem dataSource_build_shape_witness :
    sectionedState.dataSource
      = DataSource.sectioned sectionedProps.immutableData ["s1", "s2"]
          [["r1", "r2"], ["r3"]] := by
  have h := (dataSource_build_shape initialState sectionedProps false
    sectionedState (by decide)).1 rfl
  rw [h]; decide

/-- C4: for a live component in an ongoing interaction with
`rowsDuringInteraction = n ≥ 0`, the observable state sequence of one prop
update is exactly: first the synchronously committed partial state (data
source built from the first `n` rows, interaction still ongoing), then the
deferred full state (data source built from the whole collection, interaction
flag cleared) — the partial state strictly precedes the full one; and once the
interaction flag is cleared, every subsequent derivation commits a data source
built from the full untruncated collection, so the state never regresses to
partial. -/
theorem interaction_two_phase :
    (∀ (c : Component) (p : Props) (n : Int),
        c.canSetState = true → c.state.interactionOngoing = true →
        p.rowsDuringInteraction = some n → 0 ≤ n →
        ImmutableListView.interactionRun c p =
          [{ dataSource := buildDataSource p (p.immutableData.take n.toNat)
             interactionOngoing := true },
           { dataSource := buildDataSource p p.immutableData
             interactionOngoing := false }])
    ∧ (∀ (st : CompState) (p : Props) (f : Bool),
        st.interactionOngoing = false →
        committedData true st p f = some p.immutableData) := by
  constructor
  · intro c p n hl hio hn h0
    have hd : rdiNonNeg (some n) = true := by simp [rdiNonNeg, h0]
    simp [ImmutableListView.interactionRun,
      ImmutableListView.setStateFromPropsAfterInteraction,
      ImmutableListView.fireDeferred, ImmutableListView.commit,
      ImmutableListView.setStateFromProps, hl, hio, hn, hd, sliceRows,
      buildDataSource]
  · intro st p f h
    simp [committedData, ImmutableListView.setStateFromProps, h]
    cases hr : p.renderSectionHeader <;> simp [DataSource.sourceData]

def twoPhaseComponent : Component := { canSetState := true, state := initialState }

theorem interaction_two_phase_witness :
    ImmutableListView.interactionRun twoPhaseComponent truncationProps =
      [{ dataSource := buildDataSource truncationProps
           [("a", ⟨0, .prim (.atom 1)⟩)]
         interactionOngoing := true },
       { dataSource := buildDataSource truncationProps
           truncationProps.immutableData
         interactionOngoing := false }]
    ∧ committedData true { dataSource := .initial, interactionOngoing := false }
        truncationProps false = some truncationProps.immutableData := by
  constructor
  · have h := interaction_two_phase.1 twoPhaseComponent truncationProps 1 rfl rfl
      rfl (by decide)
    simpa using h
  · exact interaction_two_phase.2 _ truncationProps false rfl

def emptyStringProps : Props :=
  ImmutableListView.withDefaults
    { immutableData := [], renderEmptyInList := some (.str "") }

/-- C1 counterexample: with an empty collection and the in-list empty renderer
set to the string `""`, the rendered output is the plain list widget, not the
placeholder — `if (renderEmptyInList)` treats the empty string as falsy, so
"if the in-list empty renderer is a string" fails at `""`. -/
theorem empty_renderers_string_cex :
    emptyStringProps.renderEmptyInList = some (.str "")
    ∧ emptyStringProps.immutableData = []
    ∧ (ImmutableListView.render emptyStringProps initialState).isEmptyEl = false
    ∧ ImmutableListView.render emptyStringProps initialState
        = .listViewEl initialState.dataSource
            (ImmutableListView.passThrough emptyStringProps) := by
  exact ⟨rfl, rfl, rfl, rfl⟩

/-- C1 (amended): for every configuration whose collection is empty by the
empty check: if the in-list empty renderer is a NON-EMPTY string `s` and the
standalone renderer is unset, the output is the `EmptyListView` placeholder
specialization (the in-list string installed as its `emptyText`, `renderRow`
stripped) whose single row displays `s`; and if the standalone renderer is set
and truthy (non-empty string or function), the standalone branch takes
precedence and the list widget is not rendered at all. -/
theorem empty_renderers_precedence :
    (∀ (p : Props) (s : String),
        p.renderEmpty = none → p.renderEmptyInList = some (.str s) → s ≠ "" →
        isEmptyListView p.immutableData (p.enableEmptySections.getD false) = true →
        ImmutableListView.renderEmpty p
          = some (.emptyEl { p with renderRow := none, emptyText := some s })
        ∧ placeholderRowText { p with renderRow := none, emptyText := some s }
          = some s)
    ∧ (∀ (p : Props) (st : CompState) (r : Renderer),
        p.renderEmpty = some r → truthy (some r) = true →
        isEmptyListView p.immutableData (p.enableEmptySections.getD false) = true →
        ImmutableListView.render p st = standaloneRender r p
        ∧ (ImmutableListView.render p st).isListWidget = false) := by
  constructor
  · intro p s he hil hs hemp
    constructor
    · simp [ImmutableListView.renderEmpty, he, hil, hemp, truthy, hs]
    · simp [placeholderRowText, EmptyListView.mountRender, EmptyListView.render,
        EmptyListView.withDefaults, EmptyListView.setListDataFromProps,
        RowRenderer.run]
  · intro p st r he ht hemp
    cases r with
    | str s =>
      have hs : ¬s = "" := by simpa [truthy] using ht
      constructor <;>
        simp [ImmutableListView.render, ImmutableListView.renderEmpty, he, hemp,
          truthy, hs, standaloneRender, Rendered.isListWidget]
    | fn n =>
      constructor <;>
        simp [ImmutableListView.render, ImmutableListView.renderEmpty, he, hemp,
          truthy, standaloneRender, Rendered.isListWidget]

def inListStringProps : Props :=
  ImmutableListView.withDefaults
    { immutableData := [], renderEmptyInList := some (.str "Nothing here") }

def standaloneProps : Props :=
  ImmutableListView.withDefaults
    { immutableData := [], renderEmpty := some (.str "Nope")
      renderEmptyInList := some (.str "Nothing here") }

theorem empty_renderers_precedence_witness :
    ImmutableListView.renderEmpty inListStringProps
      = some (.emptyEl { inListStringProps with
          renderRow := none, emptyText := some "Nothing here" })
    ∧ placeholderRowText { inListStringProps with
          renderRow := none, emptyText := some "Nothing here" }
      = some "Nothing here"
    ∧ ImmutableListView.render standaloneProps initialState = .text "Nope"
    ∧ (ImmutableListView.render standaloneProps initialState).isListWidget
        = false := by
  have h1 := empty_renderers_precedence.1 inListStringProps "Nothing here" rfl rfl
    (by decide) (by decide)
  have h2 := empty_renderers_precedence.2 standaloneProps initialState
    (.str "Nope") rfl (by decide) (by decide)
  exact ⟨h1.1, h1.2, h2.1, h2.2⟩

/-- C7: the in-list empty renderer defaults to the literal string "No data.";
consequently, for every empty collection where the host configures neither
`renderEmpty` nor `renderEmptyInList`, the placeholder specialization is still
rendered, and its single row displays "No data.". -/
theorem default_empty_in_list :
    (∀ p : Props, p.renderEmptyInList = none →
        (ImmutableListView.withDefaults p).renderEmptyInList
          = some (.str "No data."))
    ∧ (∀ (p : Props) (st : CompState),
        p.renderEmpty = none → p.renderEmptyInList = none →
        p.immutableData = [] →
        ImmutableListView.render (ImmutableListView.withDefaults p) st
          = .emptyEl { ImmutableListView.withDefaults p with
              renderRow := none, emptyText := some "No data." }
        ∧ placeholderRowText { ImmutableListView.withDefaults p with
              renderRow := none, emptyText := some "No data." }
          = some "No data.") := by
  constructor
  · intro p h
    simp [ImmutableListView.withDefaults, h]
  · intro p st he hil hd
    constructor
    · simp [ImmutableListView.render, ImmutableListView.renderEmpty,
        ImmutableListView.withDefaults, he, hil, hd, truthy, isEmptyListView]
    · simp [placeholderRowText, EmptyListView.mountRender, EmptyListView.render,
        EmptyListView.withDefaults, EmptyListView.setListDataFromProps,
        RowRenderer.run, ImmutableListView.withDefaults]

def noConfigProps : Props := { immutableData := [] }

theorem default_empty_in_list_witness :
    (ImmutableListView.withDefaults noConfigProps).renderEmptyInList
      = some (.str "No data.")
    ∧ ImmutableListView.render (ImmutableListView.withDefaults noConfigProps)
        initialState
      = .emptyEl { ImmutableListView.withDefaults noConfigProps with
          renderRow := none, emptyText := some "No data." }
    ∧ placeholderRowText { ImmutableListView.withDefaults noConfigProps with
          renderRow := none, emptyText := some "No data." }
      = some "No data." := by
  have h1 := default_empty_in_list.1 noConfigProps rfl
  have h2 := default_empty_in_list.2 noConfigProps initialState rfl rfl rfl
  exact ⟨h1, h2.1, h2.2⟩

def sectionedEmptyProps : Props :=
  { immutableData := [], renderSectionHeader := true
    renderEmpty := some (.fn 7), renderEmptyInList := some (.str "x")
    emptyText := some "y", other := 42 }

/-- C8 counterexample: `EmptyListView.render` also drops the section-header
renderer — a prop that is none of the three consumed ones — so "minus only the
three consumed props ... no other prop is dropped or altered" fails: the outer
props carry a section-header renderer, the delegated props do not. -/
theorem emptyListView_passThrough_cex :
    sectionedEmptyProps.renderSectionHeader = true
    ∧ (EmptyListView.innerPropsOf sectionedEmptyProps).renderSectionHeader
        = false := by
  exact ⟨rfl, rfl⟩

/-- C8 (amended): when `EmptyListView` renders, it delegates to
`ImmutableListView` with the derived single-row collection as the data, all
other configuration passed through unchanged minus the FOUR destructured props
(`renderEmpty`, `renderEmptyInList`, `renderSectionHeader`, `emptyText`), and
with `renderRow` replaced by the default `emptyText` row renderer exactly when
the host supplied none. -/
theorem emptyListView_passThrough (p : Props) :
    EmptyListView.mountRender p
      = .ilvEl { p with
          renderEmpty := none
          renderEmptyInList := none
          renderSectionHeader := false
          emptyText := none
          renderRow := some (p.renderRow.getD
            (.emptyTextRow (p.emptyText.getD "No data.")))
          immutableData := EmptyListView.setListDataFromProps
            (EmptyListView.withDefaults p) } := by
  cases p
  rfl

/-- C9: the widget ⇄ placeholder composition is acyclic at runtime for every
configuration: `EmptyListView` delegates to `ImmutableListView` with a
one-element (hence non-empty) collection and with the empty-render props it
consumed stripped, and the inner `ImmutableListView` never takes the empty
branch (`renderEmpty` yields none even after its own defaults refill
`renderEmptyInList`) and renders the plain list widget — the recursion
terminates after one level. -/
theorem placeholder_composition_acyclic (p : Props) (st : CompState) :
    EmptyListView.mountRender p = .ilvEl (EmptyListView.innerPropsOf p)
    ∧ (EmptyListView.innerPropsOf p).immutableData.length = 1
    ∧ (EmptyListView.innerPropsOf p).renderEmpty = none
    ∧ (EmptyListView.innerPropsOf p).renderEmptyInList = none
    ∧ ImmutableListView.renderEmpty
        (ImmutableListView.withDefaults (EmptyListView.innerPropsOf p)) = none
    ∧ ImmutableListView.render
        (ImmutableListView.withDefaults (EmptyListView.innerPropsOf p)) st
      = .listViewEl st.dataSource
          (ImmutableListView.passThrough
            (ImmutableListView.withDefaults (EmptyListView.innerPropsOf p))) := by
  cases p
  refine ⟨rfl, rfl, rfl, rfl, ?_, ?_⟩ <;>
    simp [EmptyListView.innerPropsOf, EmptyListView.mountRender,
      EmptyListView.render, EmptyListView.withDefaults,
      EmptyListView.setListDataFromProps, ImmutableListView.render,
      ImmutableListView.renderEmpty, ImmutableListView.withDefaults,
      isEmptyListView, isEmptySection, truthy]

def emptySectionsProps : Props :=
  ImmutableListView.withDefaults
    { immutableData := [("s", ⟨0, .sub []⟩)]
      enableEmptySections := some false
      renderEmptyInList := some (.str "Nothing")
      rowsDuringInteraction := some 0 }

/-- C10 counterexample: a non-empty collection consisting of one empty
section, with empty sections excluded, is deemed empty by the check, so the
empty branch IS taken and the list widget is not rendered — refuting "for
every non-empty collection ... the list widget is rendered and the empty
branch is not taken". -/
theorem empty_check_cex :
    emptySectionsProps.immutableData ≠ []
    ∧ (ImmutableListView.render emptySectionsProps initialState).isEmptyEl = true
    ∧ (ImmutableListView.render emptySectionsProps initialState).isListWidget
        = false := by
  exact ⟨by decide, rfl, rfl⟩

/-- C10 (amended): the empty-state check inspects the full input collection
from props, never the truncated display data in state: for every collection
that is non-empty and does not consist solely of empty sections while empty
sections are excluded, the list widget is rendered for EVERY component state —
in particular also for the state derived with `rowsDuringInteraction = 0`
during an ongoing interaction, whose committed data source holds zero rows. -/
theorem empty_check_uses_props :
    (∀ (p : Props) (st : CompState),
        p.immutableData ≠ [] →
        (p.enableEmptySections.getD false = false →
          p.immutableData.all (fun e => isEmptySection e.2) = false) →
        ImmutableListView.render p st
          = .listViewEl st.dataSource (ImmutableListView.passThrough p))
    ∧ (∀ (st : CompState) (p : Props),
        st.interactionOngoing = true → p.rowsDuringInteraction = some 0 →
        committedData true st p false = some []) := by
  constructor
  · intro p st hne hsec
    have hemp : isEmptyListView p.immutableData (p.enableEmptySections.getD false)
        = false := by
      cases he : p.enableEmptySections.getD false with
      | true => simp [isEmptyListView, he, hne]
      | false => simp [isEmptyListView, he, hne, hsec he]
    simp [ImmutableListView.render, ImmutableListView.renderEmpty, hemp]
  · intro st p hio hn
    simp [committedData, ImmutableListView.setStateFromProps, hio, hn,
      rdiNonNeg, sliceRows]
    cases hr : p.renderSectionHeader <;>
      simp [DataSource.sourceData, getKeys, getRowIdentities]

def nonEmptyTruncatedProps : Props :=
  ImmutableListView.withDefaults
    { immutableData := [("a", ⟨0, .prim (.atom 1)⟩)]
      rowsDuringInteraction := some 0
      renderEmptyInList := some (.str "Nothing") }

def zeroRowState : CompState :=
  { dataSource := DataSource.flat [] [], interactionOngoing := true }

def excludedSectionsNonEmptyProps : Props :=
  { immutableData := [("a", ⟨0, .prim (.atom 1)⟩)]
    enableEmptySections := some false
    renderEmptyInList := some (.str "Nothing") }

theorem empty_check_uses_props_witness :
    ImmutableListView.render nonEmptyTruncatedProps zeroRowState
      = .listViewEl zeroRowState.dataSource
          (ImmutableListView.passThrough nonEmptyTruncatedProps)
    ∧ ImmutableListView.render excludedSectionsNonEmptyProps zeroRowState
      = .listViewEl zeroRowState.dataSource
          (ImmutableListView.passThrough excludedSectionsNonEmptyProps)
    ∧ committedData true initialState nonEmptyTruncatedProps false = some [] := by
  refine ⟨empty_check_uses_props.1 nonEmptyTruncatedProps zeroRowState
      (by decide) (by decide),
    empty_check_uses_props.1 excludedSectionsNonEmptyProps zeroRowState
      (by decide) (by decide),
    empty_check_uses_props.2 initialState nonEmptyTruncatedProps rfl rfl⟩

end RNImmutable
